import Mathlib

/-!
Shallow embedding of the operating-modes repository: `src/syslog_read.py`
(UDP syslog ingestion: relevance filter, state extraction, append to an
SQLite-backed store) and `src/monitor_operating_states_watch.py` (change
poller over the same store).  Datagram bytes are `List Nat` (each < 256),
decoded text is `List Char`, the store is the list of rows of the
`operating_states` table in insertion order.  Fallible SQLite operations
take an explicit success flag reproducing the caught-exception paths.
-/

/-- A row of the `operating_states` table, as created by `init_database`:
`timestamp TEXT, ip_address TEXT, port INTEGER, operating_state TEXT`. -/
structure Record where
  timestamp : String
  ip_address : String
  port : Nat
  operating_state : String
deriving DecidableEq

/-- `litMatch needle hay` is true when `needle` occurs as an initial segment
of `hay`. -/
def litMatch {α : Type} [DecidableEq α] : List α → List α → Bool
  | [], _ => true
  | _ :: _, [] => false
  | a :: as, b :: bs => if a = b then litMatch as bs else false

/-- `containsSeq needle hay`: `needle` occurs contiguously somewhere in
`hay` (Python's `in` operator on strings, and on byte sequences). -/
def containsSeq {α : Type} [DecidableEq α] (needle : List α) : List α → Bool
  | [] => litMatch needle []
  | b :: bs => litMatch needle (b :: bs) || containsSeq needle bs

/-- The single configured relevance marker, `"SE_OPMOD_CHANGED"`. -/
def relevanceMarker : List Char := "SE_OPMOD_CHANGED".data

/-- `relevant_messages = ["SE_OPMOD_CHANGED"]` from `start_syslog_server`. -/
def relevant_messages : List (List Char) := [relevanceMarker]

/-- The relevance filter inlined in the receive loop:
`any(msg in message for msg in relevant_messages)`. -/
def is_relevant (message : List Char) : Bool :=
  relevant_messages.any (fun m => containsSeq m message)

/-- The contiguous code-point ranges of the Unicode alphanumeric characters
at or above `U+0080`: the characters for which one of `isalpha`,
`isdecimal`, `isdigit` or `isnumeric` holds, which together with underscore
is exactly what CPython's regex class `\w` matches on `str` patterns.
Transcribed range-for-range from the Unicode character database CPython
ships (checked against `re` for every code point). -/
def unicodeAlnumRanges : List (Nat × Nat) := [
  (0xaa, 0xaa), (0xb2, 0xb3), (0xb5, 0xb5), (0xb9, 0xba),
  (0xbc, 0xbe), (0xc0, 0xd6), (0xd8, 0xf6), (0xf8, 0x2c1),
  (0x2c6, 0x2d1), (0x2e0, 0x2e4), (0x2ec, 0x2ec), (0x2ee, 0x2ee),
  (0x370, 0x374), (0x376, 0x377), (0x37a, 0x37d), (0x37f, 0x37f),
  (0x386, 0x386), (0x388, 0x38a), (0x38c, 0x38c), (0x38e, 0x3a1),
  (0x3a3, 0x3f5), (0x3f7, 0x481), (0x48a, 0x52f), (0x531, 0x556),
  (0x559, 0x559), (0x560, 0x588), (0x5d0, 0x5ea), (0x5ef, 0x5f2),
  (0x620, 0x64a), (0x660, 0x669), (0x66e, 0x66f), (0x671, 0x6d3),
  (0x6d5, 0x6d5), (0x6e5, 0x6e6), (0x6ee, 0x6fc), (0x6ff, 0x6ff),
  (0x710, 0x710), (0x712, 0x72f), (0x74d, 0x7a5), (0x7b1, 0x7b1),
  (0x7c0, 0x7ea), (0x7f4, 0x7f5), (0x7fa, 0x7fa), (0x800, 0x815),
  (0x81a, 0x81a), (0x824, 0x824), (0x828, 0x828), (0x840, 0x858),
  (0x860, 0x86a), (0x870, 0x887), (0x889, 0x88e), (0x8a0, 0x8c9),
  (0x904, 0x939), (0x93d, 0x93d), (0x950, 0x950), (0x958, 0x961),
  (0x966, 0x96f), (0x971, 0x980), (0x985, 0x98c), (0x98f, 0x990),
  (0x993, 0x9a8), (0x9aa, 0x9b0), (0x9b2, 0x9b2), (0x9b6, 0x9b9),
  (0x9bd, 0x9bd), (0x9ce, 0x9ce), (0x9dc, 0x9dd), (0x9df, 0x9e1),
  (0x9e6, 0x9f1), (0x9f4, 0x9f9), (0x9fc, 0x9fc), (0xa05, 0xa0a),
  (0xa0f, 0xa10), (0xa13, 0xa28), (0xa2a, 0xa30), (0xa32, 0xa33),
  (0xa35, 0xa36), (0xa38, 0xa39), (0xa59, 0xa5c), (0xa5e, 0xa5e),
  (0xa66, 0xa6f), (0xa72, 0xa74), (0xa85, 0xa8d), (0xa8f, 0xa91),
  (0xa93, 0xaa8), (0xaaa, 0xab0), (0xab2, 0xab3), (0xab5, 0xab9),
  (0xabd, 0xabd), (0xad0, 0xad0), (0xae0, 0xae1), (0xae6, 0xaef),
  (0xaf9, 0xaf9), (0xb05, 0xb0c), (0xb0f, 0xb10), (0xb13, 0xb28),
  (0xb2a, 0xb30), (0xb32, 0xb33), (0xb35, 0xb39), (0xb3d, 0xb3d),
  (0xb5c, 0xb5d), (0xb5f, 0xb61), (0xb66, 0xb6f), (0xb71, 0xb77),
  (0xb83, 0xb83), (0xb85, 0xb8a), (0xb8e, 0xb90), (0xb92, 0xb95),
  (0xb99, 0xb9a), (0xb9c, 0xb9c), (0xb9e, 0xb9f), (0xba3, 0xba4),
  (0xba8, 0xbaa), (0xbae, 0xbb9), (0xbd0, 0xbd0), (0xbe6, 0xbf2),
  (0xc05, 0xc0c), (0xc0e, 0xc10), (0xc12, 0xc28), (0xc2a, 0xc39),
  (0xc3d, 0xc3d), (0xc58, 0xc5a), (0xc5d, 0xc5d), (0xc60, 0xc61),
  (0xc66, 0xc6f), (0xc78, 0xc7e), (0xc80, 0xc80), (0xc85, 0xc8c),
  (0xc8e, 0xc90), (0xc92, 0xca8), (0xcaa, 0xcb3), (0xcb5, 0xcb9),
  (0xcbd, 0xcbd), (0xcdd, 0xcde), (0xce0, 0xce1), (0xce6, 0xcef),
  (0xcf1, 0xcf2), (0xd04, 0xd0c), (0xd0e, 0xd10), (0xd12, 0xd3a),
  (0xd3d, 0xd3d), (0xd4e, 0xd4e), (0xd54, 0xd56), (0xd58, 0xd61),
  (0xd66, 0xd78), (0xd7a, 0xd7f), (0xd85, 0xd96), (0xd9a, 0xdb1),
  (0xdb3, 0xdbb), (0xdbd, 0xdbd), (0xdc0, 0xdc6), (0xde6, 0xdef),
  (0xe01, 0xe30), (0xe32, 0xe33), (0xe40, 0xe46), (0xe50, 0xe59),
  (0xe81, 0xe82), (0xe84, 0xe84), (0xe86, 0xe8a), (0xe8c, 0xea3),
  (0xea5, 0xea5), (0xea7, 0xeb0), (0xeb2, 0xeb3), (0xebd, 0xebd),
  (0xec0, 0xec4), (0xec6, 0xec6), (0xed0, 0xed9), (0xedc, 0xedf),
  (0xf00, 0xf00), (0xf20, 0xf33), (0xf40, 0xf47), (0xf49, 0xf6c),
  (0xf88, 0xf8c), (0x1000, 0x102a), (0x103f, 0x1049), (0x1050, 0x1055),
  (0x105a, 0x105d), (0x1061, 0x1061), (0x1065, 0x1066), (0x106e, 0x1070),
  (0x1075, 0x1081), (0x108e, 0x108e), (0x1090, 0x1099), (0x10a0, 0x10c5),
  (0x10c7, 0x10c7), (0x10cd, 0x10cd), (0x10d0, 0x10fa), (0x10fc, 0x1248),
  (0x124a, 0x124d), (0x1250, 0x1256), (0x1258, 0x1258), (0x125a, 0x125d),
  (0x1260, 0x1288), (0x128a, 0x128d), (0x1290, 0x12b0), (0x12b2, 0x12b5),
  (0x12b8, 0x12be), (0x12c0, 0x12c0), (0x12c2, 0x12c5), (0x12c8, 0x12d6),
  (0x12d8, 0x1310), (0x1312, 0x1315), (0x1318, 0x135a), (0x1369, 0x137c),
  (0x1380, 0x138f), (0x13a0, 0x13f5), (0x13f8, 0x13fd), (0x1401, 0x166c),
  (0x166f, 0x167f), (0x1681, 0x169a), (0x16a0, 0x16ea), (0x16ee, 0x16f8),
  (0x1700, 0x1711), (0x171f, 0x1731), (0x1740, 0x1751), (0x1760, 0x176c),
  (0x176e, 0x1770), (0x1780, 0x17b3), (0x17d7, 0x17d7), (0x17dc, 0x17dc),
  (0x17e0, 0x17e9), (0x17f0, 0x17f9), (0x1810, 0x1819), (0x1820, 0x1878),
  (0x1880, 0x1884), (0x1887, 0x18a8), (0x18aa, 0x18aa), (0x18b0, 0x18f5),
  (0x1900, 0x191e), (0x1946, 0x196d), (0x1970, 0x1974), (0x1980, 0x19ab),
  (0x19b0, 0x19c9), (0x19d0, 0x19da), (0x1a00, 0x1a16), (0x1a20, 0x1a54),
  (0x1a80, 0x1a89), (0x1a90, 0x1a99), (0x1aa7, 0x1aa7), (0x1b05, 0x1b33),
  (0x1b45, 0x1b4c), (0x1b50, 0x1b59), (0x1b83, 0x1ba0), (0x1bae, 0x1be5),
  (0x1c00, 0x1c23), (0x1c40, 0x1c49), (0x1c4d, 0x1c7d), (0x1c80, 0x1c88),
  (0x1c90, 0x1cba), (0x1cbd, 0x1cbf), (0x1ce9, 0x1cec), (0x1cee, 0x1cf3),
  (0x1cf5, 0x1cf6), (0x1cfa, 0x1cfa), (0x1d00, 0x1dbf), (0x1e00, 0x1f15),
  (0x1f18, 0x1f1d), (0x1f20, 0x1f45), (0x1f48, 0x1f4d), (0x1f50, 0x1f57),
  (0x1f59, 0x1f59), (0x1f5b, 0x1f5b), (0x1f5d, 0x1f5d), (0x1f5f, 0x1f7d),
  (0x1f80, 0x1fb4), (0x1fb6, 0x1fbc), (0x1fbe, 0x1fbe), (0x1fc2, 0x1fc4),
  (0x1fc6, 0x1fcc), (0x1fd0, 0x1fd3), (0x1fd6, 0x1fdb), (0x1fe0, 0x1fec),
  (0x1ff2, 0x1ff4), (0x1ff6, 0x1ffc), (0x2070, 0x2071), (0x2074, 0x2079),
  (0x207f, 0x2089), (0x2090, 0x209c), (0x2102, 0x2102), (0x2107, 0x2107),
  (0x210a, 0x2113), (0x2115, 0x2115), (0x2119, 0x211d), (0x2124, 0x2124),
  (0x2126, 0x2126), (0x2128, 0x2128), (0x212a, 0x212d), (0x212f, 0x2139),
  (0x213c, 0x213f), (0x2145, 0x2149), (0x214e, 0x214e), (0x2150, 0x2189),
  (0x2460, 0x249b), (0x24ea, 0x24ff), (0x2776, 0x2793), (0x2c00, 0x2ce4),
  (0x2ceb, 0x2cee), (0x2cf2, 0x2cf3), (0x2cfd, 0x2cfd), (0x2d00, 0x2d25),
  (0x2d27, 0x2d27), (0x2d2d, 0x2d2d), (0x2d30, 0x2d67), (0x2d6f, 0x2d6f),
  (0x2d80, 0x2d96), (0x2da0, 0x2da6), (0x2da8, 0x2dae), (0x2db0, 0x2db6),
  (0x2db8, 0x2dbe), (0x2dc0, 0x2dc6), (0x2dc8, 0x2dce), (0x2dd0, 0x2dd6),
  (0x2dd8, 0x2dde), (0x2e2f, 0x2e2f), (0x3005, 0x3007), (0x3021, 0x3029),
  (0x3031, 0x3035), (0x3038, 0x303c), (0x3041, 0x3096), (0x309d, 0x309f),
  (0x30a1, 0x30fa), (0x30fc, 0x30ff), (0x3105, 0x312f), (0x3131, 0x318e),
  (0x3192, 0x3195), (0x31a0, 0x31bf), (0x31f0, 0x31ff), (0x3220, 0x3229),
  (0x3248, 0x324f), (0x3251, 0x325f), (0x3280, 0x3289), (0x32b1, 0x32bf),
  (0x3400, 0x4dbf), (0x4e00, 0xa48c), (0xa4d0, 0xa4fd), (0xa500, 0xa60c),
  (0xa610, 0xa62b), (0xa640, 0xa66e), (0xa67f, 0xa69d), (0xa6a0, 0xa6ef),
  (0xa717, 0xa71f), (0xa722, 0xa788), (0xa78b, 0xa7ca), (0xa7d0, 0xa7d1),
  (0xa7d3, 0xa7d3), (0xa7d5, 0xa7d9), (0xa7f2, 0xa801), (0xa803, 0xa805),
  (0xa807, 0xa80a), (0xa80c, 0xa822), (0xa830, 0xa835), (0xa840, 0xa873),
  (0xa882, 0xa8b3), (0xa8d0, 0xa8d9), (0xa8f2, 0xa8f7), (0xa8fb, 0xa8fb),
  (0xa8fd, 0xa8fe), (0xa900, 0xa925), (0xa930, 0xa946), (0xa960, 0xa97c),
  (0xa984, 0xa9b2), (0xa9cf, 0xa9d9), (0xa9e0, 0xa9e4), (0xa9e6, 0xa9fe),
  (0xaa00, 0xaa28), (0xaa40, 0xaa42), (0xaa44, 0xaa4b), (0xaa50, 0xaa59),
  (0xaa60, 0xaa76), (0xaa7a, 0xaa7a), (0xaa7e, 0xaaaf), (0xaab1, 0xaab1),
  (0xaab5, 0xaab6), (0xaab9, 0xaabd), (0xaac0, 0xaac0), (0xaac2, 0xaac2),
  (0xaadb, 0xaadd), (0xaae0, 0xaaea), (0xaaf2, 0xaaf4), (0xab01, 0xab06),
  (0xab09, 0xab0e), (0xab11, 0xab16), (0xab20, 0xab26), (0xab28, 0xab2e),
  (0xab30, 0xab5a), (0xab5c, 0xab69), (0xab70, 0xabe2), (0xabf0, 0xabf9),
  (0xac00, 0xd7a3), (0xd7b0, 0xd7c6), (0xd7cb, 0xd7fb), (0xf900, 0xfa6d),
  (0xfa70, 0xfad9), (0xfb00, 0xfb06), (0xfb13, 0xfb17), (0xfb1d, 0xfb1d),
  (0xfb1f, 0xfb28), (0xfb2a, 0xfb36), (0xfb38, 0xfb3c), (0xfb3e, 0xfb3e),
  (0xfb40, 0xfb41), (0xfb43, 0xfb44), (0xfb46, 0xfbb1), (0xfbd3, 0xfd3d),
  (0xfd50, 0xfd8f), (0xfd92, 0xfdc7), (0xfdf0, 0xfdfb), (0xfe70, 0xfe74),
  (0xfe76, 0xfefc), (0xff10, 0xff19), (0xff21, 0xff3a), (0xff41, 0xff5a),
  (0xff66, 0xffbe), (0xffc2, 0xffc7), (0xffca, 0xffcf), (0xffd2, 0xffd7),
  (0xffda, 0xffdc), (0x10000, 0x1000b), (0x1000d, 0x10026), (0x10028, 0x1003a),
  (0x1003c, 0x1003d), (0x1003f, 0x1004d), (0x10050, 0x1005d), (0x10080, 0x100fa),
  (0x10107, 0x10133), (0x10140, 0x10178), (0x1018a, 0x1018b), (0x10280, 0x1029c),
  (0x102a0, 0x102d0), (0x102e1, 0x102fb), (0x10300, 0x10323), (0x1032d, 0x1034a),
  (0x10350, 0x10375), (0x10380, 0x1039d), (0x103a0, 0x103c3), (0x103c8, 0x103cf),
  (0x103d1, 0x103d5), (0x10400, 0x1049d), (0x104a0, 0x104a9), (0x104b0, 0x104d3),
  (0x104d8, 0x104fb), (0x10500, 0x10527), (0x10530, 0x10563), (0x10570, 0x1057a),
  (0x1057c, 0x1058a), (0x1058c, 0x10592), (0x10594, 0x10595), (0x10597, 0x105a1),
  (0x105a3, 0x105b1), (0x105b3, 0x105b9), (0x105bb, 0x105bc), (0x10600, 0x10736),
  (0x10740, 0x10755), (0x10760, 0x10767), (0x10780, 0x10785), (0x10787, 0x107b0),
  (0x107b2, 0x107ba), (0x10800, 0x10805), (0x10808, 0x10808), (0x1080a, 0x10835),
  (0x10837, 0x10838), (0x1083c, 0x1083c), (0x1083f, 0x10855), (0x10858, 0x10876),
  (0x10879, 0x1089e), (0x108a7, 0x108af), (0x108e0, 0x108f2), (0x108f4, 0x108f5),
  (0x108fb, 0x1091b), (0x10920, 0x10939), (0x10980, 0x109b7), (0x109bc, 0x109cf),
  (0x109d2, 0x10a00), (0x10a10, 0x10a13), (0x10a15, 0x10a17), (0x10a19, 0x10a35),
  (0x10a40, 0x10a48), (0x10a60, 0x10a7e), (0x10a80, 0x10a9f), (0x10ac0, 0x10ac7),
  (0x10ac9, 0x10ae4), (0x10aeb, 0x10aef), (0x10b00, 0x10b35), (0x10b40, 0x10b55),
  (0x10b58, 0x10b72), (0x10b78, 0x10b91), (0x10ba9, 0x10baf), (0x10c00, 0x10c48),
  (0x10c80, 0x10cb2), (0x10cc0, 0x10cf2), (0x10cfa, 0x10d23), (0x10d30, 0x10d39),
  (0x10e60, 0x10e7e), (0x10e80, 0x10ea9), (0x10eb0, 0x10eb1), (0x10f00, 0x10f27),
  (0x10f30, 0x10f45), (0x10f51, 0x10f54), (0x10f70, 0x10f81), (0x10fb0, 0x10fcb),
  (0x10fe0, 0x10ff6), (0x11003, 0x11037), (0x11052, 0x1106f), (0x11071, 0x11072),
  (0x11075, 0x11075), (0x11083, 0x110af), (0x110d0, 0x110e8), (0x110f0, 0x110f9),
  (0x11103, 0x11126), (0x11136, 0x1113f), (0x11144, 0x11144), (0x11147, 0x11147),
  (0x11150, 0x11172), (0x11176, 0x11176), (0x11183, 0x111b2), (0x111c1, 0x111c4),
  (0x111d0, 0x111da), (0x111dc, 0x111dc), (0x111e1, 0x111f4), (0x11200, 0x11211),
  (0x11213, 0x1122b), (0x11280, 0x11286), (0x11288, 0x11288), (0x1128a, 0x1128d),
  (0x1128f, 0x1129d), (0x1129f, 0x112a8), (0x112b0, 0x112de), (0x112f0, 0x112f9),
  (0x11305, 0x1130c), (0x1130f, 0x11310), (0x11313, 0x11328), (0x1132a, 0x11330),
  (0x11332, 0x11333), (0x11335, 0x11339), (0x1133d, 0x1133d), (0x11350, 0x11350),
  (0x1135d, 0x11361), (0x11400, 0x11434), (0x11447, 0x1144a), (0x11450, 0x11459),
  (0x1145f, 0x11461), (0x11480, 0x114af), (0x114c4, 0x114c5), (0x114c7, 0x114c7),
  (0x114d0, 0x114d9), (0x11580, 0x115ae), (0x115d8, 0x115db), (0x11600, 0x1162f),
  (0x11644, 0x11644), (0x11650, 0x11659), (0x11680, 0x116aa), (0x116b8, 0x116b8),
  (0x116c0, 0x116c9), (0x11700, 0x1171a), (0x11730, 0x1173b), (0x11740, 0x11746),
  (0x11800, 0x1182b), (0x118a0, 0x118f2), (0x118ff, 0x11906), (0x11909, 0x11909),
  (0x1190c, 0x11913), (0x11915, 0x11916), (0x11918, 0x1192f), (0x1193f, 0x1193f),
  (0x11941, 0x11941), (0x11950, 0x11959), (0x119a0, 0x119a7), (0x119aa, 0x119d0),
  (0x119e1, 0x119e1), (0x119e3, 0x119e3), (0x11a00, 0x11a00), (0x11a0b, 0x11a32),
  (0x11a3a, 0x11a3a), (0x11a50, 0x11a50), (0x11a5c, 0x11a89), (0x11a9d, 0x11a9d),
  (0x11ab0, 0x11af8), (0x11c00, 0x11c08), (0x11c0a, 0x11c2e), (0x11c40, 0x11c40),
  (0x11c50, 0x11c6c), (0x11c72, 0x11c8f), (0x11d00, 0x11d06), (0x11d08, 0x11d09),
  (0x11d0b, 0x11d30), (0x11d46, 0x11d46), (0x11d50, 0x11d59), (0x11d60, 0x11d65),
  (0x11d67, 0x11d68), (0x11d6a, 0x11d89), (0x11d98, 0x11d98), (0x11da0, 0x11da9),
  (0x11ee0, 0x11ef2), (0x11fb0, 0x11fb0), (0x11fc0, 0x11fd4), (0x12000, 0x12399),
  (0x12400, 0x1246e), (0x12480, 0x12543), (0x12f90, 0x12ff0), (0x13000, 0x1342e),
  (0x14400, 0x14646), (0x16800, 0x16a38), (0x16a40, 0x16a5e), (0x16a60, 0x16a69),
  (0x16a70, 0x16abe), (0x16ac0, 0x16ac9), (0x16ad0, 0x16aed), (0x16b00, 0x16b2f),
  (0x16b40, 0x16b43), (0x16b50, 0x16b59), (0x16b5b, 0x16b61), (0x16b63, 0x16b77),
  (0x16b7d, 0x16b8f), (0x16e40, 0x16e96), (0x16f00, 0x16f4a), (0x16f50, 0x16f50),
  (0x16f93, 0x16f9f), (0x16fe0, 0x16fe1), (0x16fe3, 0x16fe3), (0x17000, 0x187f7),
  (0x18800, 0x18cd5), (0x18d00, 0x18d08), (0x1aff0, 0x1aff3), (0x1aff5, 0x1affb),
  (0x1affd, 0x1affe), (0x1b000, 0x1b122), (0x1b150, 0x1b152), (0x1b164, 0x1b167),
  (0x1b170, 0x1b2fb), (0x1bc00, 0x1bc6a), (0x1bc70, 0x1bc7c), (0x1bc80, 0x1bc88),
  (0x1bc90, 0x1bc99), (0x1d2e0, 0x1d2f3), (0x1d360, 0x1d378), (0x1d400, 0x1d454),
  (0x1d456, 0x1d49c), (0x1d49e, 0x1d49f), (0x1d4a2, 0x1d4a2), (0x1d4a5, 0x1d4a6),
  (0x1d4a9, 0x1d4ac), (0x1d4ae, 0x1d4b9), (0x1d4bb, 0x1d4bb), (0x1d4bd, 0x1d4c3),
  (0x1d4c5, 0x1d505), (0x1d507, 0x1d50a), (0x1d50d, 0x1d514), (0x1d516, 0x1d51c),
  (0x1d51e, 0x1d539), (0x1d53b, 0x1d53e), (0x1d540, 0x1d544), (0x1d546, 0x1d546),
  (0x1d54a, 0x1d550), (0x1d552, 0x1d6a5), (0x1d6a8, 0x1d6c0), (0x1d6c2, 0x1d6da),
  (0x1d6dc, 0x1d6fa), (0x1d6fc, 0x1d714), (0x1d716, 0x1d734), (0x1d736, 0x1d74e),
  (0x1d750, 0x1d76e), (0x1d770, 0x1d788), (0x1d78a, 0x1d7a8), (0x1d7aa, 0x1d7c2),
  (0x1d7c4, 0x1d7cb), (0x1d7ce, 0x1d7ff), (0x1df00, 0x1df1e), (0x1e100, 0x1e12c),
  (0x1e137, 0x1e13d), (0x1e140, 0x1e149), (0x1e14e, 0x1e14e), (0x1e290, 0x1e2ad),
  (0x1e2c0, 0x1e2eb), (0x1e2f0, 0x1e2f9), (0x1e7e0, 0x1e7e6), (0x1e7e8, 0x1e7eb),
  (0x1e7ed, 0x1e7ee), (0x1e7f0, 0x1e7fe), (0x1e800, 0x1e8c4), (0x1e8c7, 0x1e8cf),
  (0x1e900, 0x1e943), (0x1e94b, 0x1e94b), (0x1e950, 0x1e959), (0x1ec71, 0x1ecab),
  (0x1ecad, 0x1ecaf), (0x1ecb1, 0x1ecb4), (0x1ed01, 0x1ed2d), (0x1ed2f, 0x1ed3d),
  (0x1ee00, 0x1ee03), (0x1ee05, 0x1ee1f), (0x1ee21, 0x1ee22), (0x1ee24, 0x1ee24),
  (0x1ee27, 0x1ee27), (0x1ee29, 0x1ee32), (0x1ee34, 0x1ee37), (0x1ee39, 0x1ee39),
  (0x1ee3b, 0x1ee3b), (0x1ee42, 0x1ee42), (0x1ee47, 0x1ee47), (0x1ee49, 0x1ee49),
  (0x1ee4b, 0x1ee4b), (0x1ee4d, 0x1ee4f), (0x1ee51, 0x1ee52), (0x1ee54, 0x1ee54),
  (0x1ee57, 0x1ee57), (0x1ee59, 0x1ee59), (0x1ee5b, 0x1ee5b), (0x1ee5d, 0x1ee5d),
  (0x1ee5f, 0x1ee5f), (0x1ee61, 0x1ee62), (0x1ee64, 0x1ee64), (0x1ee67, 0x1ee6a),
  (0x1ee6c, 0x1ee72), (0x1ee74, 0x1ee77), (0x1ee79, 0x1ee7c), (0x1ee7e, 0x1ee7e),
  (0x1ee80, 0x1ee89), (0x1ee8b, 0x1ee9b), (0x1eea1, 0x1eea3), (0x1eea5, 0x1eea9),
  (0x1eeab, 0x1eebb), (0x1f100, 0x1f10c), (0x1fbf0, 0x1fbf9), (0x20000, 0x2a6df),
  (0x2a700, 0x2b738), (0x2b740, 0x2b81d), (0x2b820, 0x2cea1), (0x2ceb0, 0x2ebe0),
  (0x2f800, 0x2fa1d), (0x30000, 0x3134a)]

/-- Python's regex class `\w` for `str` patterns: ASCII letters, digits and
underscore, plus every other Unicode alphanumeric character (`ª é λ Ω` and
so on), per `unicodeAlnumRanges`. -/
def isWordChar (c : Char) : Bool :=
  c.isAlphanum || c = '_' ||
    (decide (0x80 ≤ c.toNat) &&
      unicodeAlnumRanges.any (fun p => decide (p.1 ≤ c.toNat) && decide (c.toNat ≤ p.2)))

/-- The literal part `newState="` of the regex `newState="(\w+)"`. -/
def newStateKey : List Char := "newState=\"".data

/-- One attempt of the regex `newState="(\w+)"` anchored at the head of `s`:
the literal key, then a non-empty greedy run of word characters, then a
closing quote.  Since `"` is not a word character, backtracking never
shortens the greedy run, so the captured group is the maximal run. -/
def matchNewStateAt (s : List Char) : Option (List Char) :=
  if litMatch newStateKey s then
    if (s.drop newStateKey.length).takeWhile isWordChar = [] then none
    else if litMatch ['"']
        ((s.drop newStateKey.length).drop
          ((s.drop newStateKey.length).takeWhile isWordChar).length) then
      some ((s.drop newStateKey.length).takeWhile isWordChar)
    else none
  else none

/-- `parse_operating_state`: `re.search(r'newState="(\w+)"', message)`
returning the captured group of the leftmost match, or `None`. -/
def parse_operating_state : List Char → Option (List Char)
  | [] => none
  | c :: cs =>
    match matchNewStateAt (c :: cs) with
    | some tok => some tok
    | none => parse_operating_state cs

/-- UTF-8 continuation byte, `0x80`-`0xBF`. -/
def isCont (b : Nat) : Bool := decide (0x80 ≤ b ∧ b ≤ 0xBF)

/-- Worker for `utf8DecodeIgnore`, structurally recursive on a fuel that
bounds the number of bytes left; every step consumes at least one byte, so
fuel equal to the input length is never exhausted. -/
def utf8DecodeIgnoreAux : Nat → List Nat → List Char
  | 0, _ => []
  | _ + 1, [] => []
  | fuel + 1, b0 :: r =>
    if b0 < 0x80 then Char.ofNat b0 :: utf8DecodeIgnoreAux fuel r
    else if 0xC2 ≤ b0 ∧ b0 ≤ 0xDF then
      match r with
      | [] => []
      | b1 :: r1 =>
        if isCont b1 then
          Char.ofNat ((b0 - 0xC0) * 64 + (b1 - 0x80)) :: utf8DecodeIgnoreAux fuel r1
        else utf8DecodeIgnoreAux fuel r
    else if 0xE0 ≤ b0 ∧ b0 ≤ 0xEF then
      match r with
      | [] => []
      | b1 :: r1 =>
        if (if b0 = 0xE0 then decide (0xA0 ≤ b1 ∧ b1 ≤ 0xBF)
            else if b0 = 0xED then decide (0x80 ≤ b1 ∧ b1 ≤ 0x9F)
            else isCont b1) then
          match r1 with
          | [] => []
          | b2 :: r2 =>
            if isCont b2 then
              Char.ofNat ((b0 - 0xE0) * 4096 + (b1 - 0x80) * 64 + (b2 - 0x80)) ::
                utf8DecodeIgnoreAux fuel r2
            else utf8DecodeIgnoreAux fuel r1
        else utf8DecodeIgnoreAux fuel r
    else if 0xF0 ≤ b0 ∧ b0 ≤ 0xF4 then
      match r with
      | [] => []
      | b1 :: r1 =>
        if (if b0 = 0xF0 then decide (0x90 ≤ b1 ∧ b1 ≤ 0xBF)
            else if b0 = 0xF4 then decide (0x80 ≤ b1 ∧ b1 ≤ 0x8F)
            else isCont b1) then
          match r1 with
          | [] => []
          | b2 :: r2 =>
            if isCont b2 then
              match r2 with
              | [] => []
              | b3 :: r3 =>
                if isCont b3 then
                  Char.ofNat ((b0 - 0xF0) * 262144 + (b1 - 0x80) * 4096 +
                      (b2 - 0x80) * 64 + (b3 - 0x80)) :: utf8DecodeIgnoreAux fuel r3
                else utf8DecodeIgnoreAux fuel r2
            else utf8DecodeIgnoreAux fuel r1
        else utf8DecodeIgnoreAux fuel r
    else utf8DecodeIgnoreAux fuel r

/-- `data.decode('utf-8', errors='ignore')`: well-formed sequences decode to
their code point (overlong forms, surrogates and values above `0x10FFFF`
rejected); an ill-formed sequence is skipped at its maximal subpart and
decoding resumes, producing no replacement character; a truncated sequence
at the end of input is dropped. -/
def utf8DecodeIgnore (l : List Nat) : List Char :=
  utf8DecodeIgnoreAux l.length l

/-- A datagram as delivered by `sock.recvfrom`: raw bytes and the source
address `(ip, port)`. -/
structure Datagram where
  data : List Nat
  ip : String
  port : Nat
deriving DecidableEq

/-- The environment of one receive-loop iteration: the datagram, the value
`datetime.now().isoformat()` yields inside `log_to_database`, and whether
the SQLite `INSERT` succeeds (otherwise `sqlite3.Error` is raised there and
caught). -/
structure IngestEvent where
  dgram : Datagram
  now : String
  appendOk : Bool
deriving DecidableEq

/-- `log_to_database`: on success the row is inserted and committed; on
`sqlite3.Error` the exception is caught and logged and the table is left
unchanged.  The function returns normally in both cases. -/
def log_to_database (store : List Record) (ok : Bool) (ts ip : String)
    (port : Nat) (operating_state : String) : List Record :=
  if ok then store ++ [⟨ts, ip, port, operating_state⟩] else store

/-- The body of the `while True` receive loop of `start_syslog_server` for
one datagram: decode lossily, test relevance, extract the state, and append
on success.  Irrelevant datagrams and relevant-but-unparseable ones leave
the store unchanged (they are only logged). -/
def processDatagram (store : List Record) (e : IngestEvent) : List Record :=
  if is_relevant (utf8DecodeIgnore e.dgram.data) then
    match parse_operating_state (utf8DecodeIgnore e.dgram.data) with
    | some newState =>
        log_to_database store e.appendOk e.now e.dgram.ip e.dgram.port
          (String.mk newState)
    | none => store
  else store

/-- The receive loop of `start_syslog_server` over a finite trace of
datagram events. -/
def runListener (store : List Record) : List IngestEvent → List Record
  | [] => store
  | e :: es => runListener (processDatagram store e) es

/-- The record one event contributes to the store: present exactly when the
decoded text is relevant, a state token is extracted, and the insert
succeeds. -/
def eventRecord (e : IngestEvent) : Option Record :=
  if is_relevant (utf8DecodeIgnore e.dgram.data) then
    match parse_operating_state (utf8DecodeIgnore e.dgram.data) with
    | some newState =>
        if e.appendOk then
          some ⟨e.now, e.dgram.ip, e.dgram.port, String.mk newState⟩
        else none
    | none => none
  else none

/-- Strict lexicographic order on character lists by code point; on UTF-8
encoded text this agrees with the byte-wise `memcmp` order SQLite uses for
`TEXT` values. -/
def charListLt : List Char → List Char → Bool
  | _, [] => false
  | [], _ :: _ => true
  | a :: as, b :: bs =>
    if a.toNat < b.toNat then true
    else if b.toNat < a.toNat then false
    else charListLt as bs

/-- SQLite's ordering of the `timestamp TEXT` column. -/
def tsLt (a b : String) : Bool := charListLt a.data b.data

/-- Scan for the row with the greatest `timestamp`, keeping the earlier row
on ties (`ORDER BY timestamp DESC LIMIT 1` over the table). -/
def maxByTs (r : Record) : List Record → Record
  | [] => r
  | s :: ss => if tsLt r.timestamp s.timestamp then maxByTs s ss else maxByTs r ss

/-- The successful path of `query_latest_state`:
`SELECT ... FROM operating_states ORDER BY timestamp DESC LIMIT 1`,
`None` on an empty table. -/
def query_latest : List Record → Option Record
  | [] => none
  | r :: rs => some (maxByTs r rs)

/-- `query_latest_state` including its error path: on `sqlite3.Error` the
error is printed and `None` is returned. -/
def query_latest_state (ok : Bool) (store : List Record) : Option Record :=
  if ok then query_latest store else none

/-- `get_record_count`: `SELECT COUNT(*) FROM operating_states`, or `-1`
after a caught `sqlite3.Error`. -/
def get_record_count (ok : Bool) (store : List Record) : Int :=
  if ok then (store.length : Int) else -1

/-- The poller's session state in `main`: `last_record_count` and
`last_state` (the most recently displayed row, `None` initially). -/
structure PollerState where
  last_record_count : Int
  last_state : Option Record
deriving DecidableEq

/-- `main`'s change test on the freshly read row:
`last_state is None or current_state[0] != last_state[0] or
current_state[3] != last_state[3]`. -/
def stateDiffers (r : Record) (ls : Option Record) : Bool :=
  match ls with
  | none => true
  | some l =>
      decide (r.timestamp ≠ l.timestamp) ∨
        decide (r.operating_state ≠ l.operating_state)

/-- One iteration of `main`'s polling loop, given the results of the two
reads this tick: returns the updated session state and the notification
displayed this tick, if any. -/
def pollTick (ps : PollerState) (cnt : Int) (latest : Option Record) :
    PollerState × Option Record :=
  if ps.last_record_count < cnt ∧ (0 : Int) < cnt then
    match latest with
    | some r =>
        if stateDiffers r ps.last_state then (⟨cnt, some r⟩, some r)
        else (⟨cnt, ps.last_state⟩, none)
    | none => (⟨cnt, ps.last_state⟩, none)
  else (ps, none)

/-- What one tick sees: the store contents at tick time and whether each of
the two reads succeeds. -/
structure TickInput where
  store : List Record
  countOk : Bool
  latestOk : Bool
deriving DecidableEq

/-- A failure-free tick over store `S`. -/
def goodTick (S : List Record) : TickInput := ⟨S, true, true⟩

/-- The polling loop of `main` over a finite trace of ticks: the final
session state and the per-tick notifications (`none` for a silent tick). -/
def runPoller (ps : PollerState) : List TickInput → PollerState × List (Option Record)
  | [] => (ps, [])
  | t :: ts =>
    (
      (runPoller (pollTick ps (get_record_count t.countOk t.store)
          (query_latest_state t.latestOk t.store)).1 ts).1,
      (pollTick ps (get_record_count t.countOk t.store)
          (query_latest_state t.latestOk t.store)).2 ::
        (runPoller (pollTick ps (get_record_count t.countOk t.store)
            (query_latest_state t.latestOk t.store)).1 ts).2
    )

/-- Poller startup in `main`: `last_record_count = get_record_count()`
(so `-1` if that first read fails) and `last_state = None`. -/
def pollerInit (countOk : Bool) (store : List Record) : PollerState :=
  ⟨get_record_count countOk store, none⟩

/-- The store invariant stated by the design: insertion order agrees with
strictly increasing `timestamp` order. -/
def tsSorted : List Record → Bool
  | [] => true
  | [_] => true
  | a :: b :: rs => tsLt a.timestamp b.timestamp && tsSorted (b :: rs)

/-- A well-formed fragment `newState="X"` occurs in `t` at position `i`
with token `X`: `X` is a non-empty run of word characters and the literal
`newState="`, then `X`, then `"` starts at position `i`. -/
def FragmentAt (t : List Char) (i : Nat) (X : List Char) : Prop :=
  X ≠ [] ∧ (∀ c ∈ X, isWordChar c = true) ∧
  litMatch (newStateKey ++ X ++ ['"']) (t.drop i) = true

/-- The token class `[A-Za-z0-9_]` named by the specification. -/
def asciiWordChar (c : Char) : Bool := c.isAlphanum || c = '_'

/-- `S` is `S₀` with zero or more records appended (the append-only store
evolution). -/
def storeExtends (S₀ S : List Record) : Prop := ∃ u, S = S₀ ++ u

/-- Each notification in the list differs, in timestamp or state, from the
previously notified record (`ls` at the start). -/
def NotifChain : Option Record → List Record → Prop
  | _, [] => True
  | ls, r :: rs => stateDiffers r ls = true ∧ NotifChain (some r) rs

/-- Sample record: the end-to-end scenario datagram from `10.0.0.5:555`. -/
def rec1 : Record := ⟨"2025-01-01T00:00:00", "10.0.0.5", 555, "RUN"⟩

/-- Sample record with a strictly later timestamp. -/
def rec2 : Record := ⟨"2025-01-01T00:00:01", "10.0.0.5", 555, "STOP"⟩

/-- The relevance marker as its ASCII byte sequence. -/
def markerBytes : List Nat := relevanceMarker.map Char.toNat

/-- Bytes of a datagram that interleaves one invalid UTF-8 byte (`0xFF`)
inside the marker text: the marker is not a byte substring, but lossy
decoding drops the invalid byte and reconstitutes it. -/
def cexBytes : List Nat :=
  "SE_OPMOD".data.map Char.toNat ++ [0xFF] ++
    "_CHANGED newState=\"RUN\"".data.map Char.toNat

/-- A well-formed relevant datagram event whose append fails. -/
def failEvent : IngestEvent :=
  ⟨⟨"SE_OPMOD_CHANGED newState=\"RUN\"".data.map Char.toNat, "10.0.0.5", 555⟩,
    "2025-01-01T00:00:00", false⟩

/-- The same datagram event with a successful append. -/
def okEvent : IngestEvent :=
  ⟨⟨"SE_OPMOD_CHANGED newState=\"RUN\"".data.map Char.toNat, "10.0.0.5", 555⟩,
    "2025-01-01T00:00:00", true⟩

/-! Helper lemmas. -/

theorem litMatch_iff {α : Type} [DecidableEq α] (n s : List α) :
    litMatch n s = true ↔ ∃ u, s = n ++ u := by
  induction n generalizing s with
  | nil => simp only [litMatch, List.nil_append, true_iff]; exact ⟨s, rfl⟩
  | cons a as ih =>
    cases s with
    | nil => simp [litMatch]
    | cons b bs =>
      simp only [litMatch, List.cons_append]
      by_cases hab : a = b
      · subst hab
        rw [if_pos rfl, ih]
        constructor
        · rintro ⟨u, rfl⟩; exact ⟨u, rfl⟩
        · rintro ⟨u, hu⟩
          simp only [List.cons.injEq, true_and] at hu
          exact ⟨u, hu⟩
      · rw [if_neg hab]
        constructor
        · intro h; simp at h
        · rintro ⟨u, hu⟩
          simp only [List.cons.injEq] at hu
          exact absurd hu.1.symm hab

theorem charListLt_irrefl (l : List Char) : charListLt l l = false := by
  induction l with
  | nil => rfl
  | cons a as ih =>
    simp only [charListLt]
    rw [if_neg (Nat.lt_irrefl _), if_neg (Nat.lt_irrefl _)]
    exact ih

theorem charListLt_trans {a b c : List Char} (h1 : charListLt a b = true)
    (h2 : charListLt b c = true) : charListLt a c = true := by
  induction a generalizing b c with
  | nil =>
    cases c with
    | nil =>
      cases b with
      | nil => simp [charListLt] at h1
      | cons y ys => simp [charListLt] at h2
    | cons z zs => simp [charListLt]
  | cons x xs ih =>
    cases b with
    | nil => simp [charListLt] at h1
    | cons y ys =>
      cases c with
      | nil => simp [charListLt] at h2
      | cons z zs =>
        simp only [charListLt] at h1 h2 ⊢
        by_cases h1a : x.toNat < y.toNat
        · rw [if_pos h1a] at h1
          by_cases h2a : y.toNat < z.toNat
          · rw [if_pos (show x.toNat < z.toNat by omega)]
          · rw [if_neg h2a] at h2
            by_cases h2b : z.toNat < y.toNat
            · rw [if_pos h2b] at h2; simp at h2
            · rw [if_pos (show x.toNat < z.toNat by omega)]
        · rw [if_neg h1a] at h1
          by_cases h1b : y.toNat < x.toNat
          · rw [if_pos h1b] at h1; simp at h1
          · rw [if_neg h1b] at h1
            by_cases h2a : y.toNat < z.toNat
            · rw [if_pos (show x.toNat < z.toNat by omega)]
            · rw [if_neg h2a] at h2
              by_cases h2b : z.toNat < y.toNat
              · rw [if_pos h2b] at h2; simp at h2
              · rw [if_neg h2b] at h2
                rw [if_neg (show ¬ x.toNat < z.toNat by omega),
                  if_neg (show ¬ z.toNat < x.toNat by omega)]
                exact ih h1 h2

theorem charListLt_neg_trans {a b c : List Char} (h1 : charListLt a b = false)
    (h2 : charListLt b c = false) : charListLt a c = false := by
  induction a generalizing b c with
  | nil =>
    cases b with
    | nil => exact h2
    | cons y ys => simp [charListLt] at h1
  | cons x xs ih =>
    cases c with
    | nil => simp [charListLt]
    | cons z zs =>
      cases b with
      | nil => simp [charListLt] at h2
      | cons y ys =>
        simp only [charListLt] at h1 h2 ⊢
        by_cases h1a : x.toNat < y.toNat
        · rw [if_pos h1a] at h1; simp at h1
        · rw [if_neg h1a] at h1
          by_cases h2a : y.toNat < z.toNat
          · rw [if_pos h2a] at h2; simp at h2
          · rw [if_neg h2a] at h2
            by_cases h1b : y.toNat < x.toNat
            · rw [if_neg (show ¬ x.toNat < z.toNat by omega),
                if_pos (show z.toNat < x.toNat by omega)]
            · rw [if_neg h1b] at h1
              by_cases h2b : z.toNat < y.toNat
              · rw [if_neg (show ¬ x.toNat < z.toNat by omega),
                  if_pos (show z.toNat < x.toNat by omega)]
              · rw [if_neg h2b] at h2
                rw [if_neg (show ¬ x.toNat < z.toNat by omega),
                  if_neg (show ¬ z.toNat < x.toNat by omega)]
                exact ih h1 h2

theorem tsLt_irrefl (a : String) : tsLt a a = false := charListLt_irrefl a.data

theorem tsLt_trans {a b c : String} (h1 : tsLt a b = true) (h2 : tsLt b c = true) :
    tsLt a c = true := charListLt_trans h1 h2

theorem tsLt_neg_trans {a b c : String} (h1 : tsLt a b = false)
    (h2 : tsLt b c = false) : tsLt a c = false := charListLt_neg_trans h1 h2

theorem takeWhile_append_drop (p : Char → Bool) (l : List Char) :
    l.takeWhile p ++ l.drop (l.takeWhile p).length = l := by
  induction l with
  | nil => rfl
  | cons a as ih =>
    rw [List.takeWhile_cons]
    by_cases h : p a = true
    · rw [if_pos h]
      simp only [List.cons_append, List.length_cons, List.drop_succ_cons]
      rw [ih]
    · rw [if_neg h]
      simp

theorem takeWhile_word_eq (X u : List Char) (c : Char)
    (hX : ∀ x ∈ X, isWordChar x = true) (hc : isWordChar c = false) :
    (X ++ c :: u).takeWhile isWordChar = X := by
  induction X with
  | nil => simp [List.takeWhile_cons, hc]
  | cons a as ih =>
    rw [List.cons_append, List.takeWhile_cons, if_pos (hX a (by simp))]
    rw [ih (fun x hx => hX x (by simp [hx]))]

theorem matchNewStateAt_iff (s X : List Char) :
    matchNewStateAt s = some X ↔
      X ≠ [] ∧ (∀ c ∈ X, isWordChar c = true) ∧
        ∃ u, s = newStateKey ++ (X ++ '"' :: u) := by
  constructor
  · intro h
    unfold matchNewStateAt at h
    by_cases h0 : litMatch newStateKey s = true
    case neg => rw [if_neg h0] at h; simp at h
    rw [if_pos h0] at h
    obtain ⟨r, rfl⟩ := (litMatch_iff _ _).mp h0
    simp only [List.drop_left] at h
    by_cases h1 : r.takeWhile isWordChar = []
    case pos => rw [if_pos h1] at h; simp at h
    rw [if_neg h1] at h
    by_cases h2 : litMatch ['"'] (r.drop (r.takeWhile isWordChar).length) = true
    case neg => rw [if_neg h2] at h; simp at h
    rw [if_pos h2, Option.some.injEq] at h
    subst h
    refine ⟨h1, fun c hc => List.mem_takeWhile_imp hc, ?_⟩
    obtain ⟨u, hu⟩ := (litMatch_iff _ _).mp h2
    refine ⟨u, ?_⟩
    have hr := takeWhile_append_drop isWordChar r
    rw [hu, List.singleton_append] at hr
    rw [hr]
  · rintro ⟨hne, hw, u, rfl⟩
    unfold matchNewStateAt
    rw [if_pos ((litMatch_iff _ _).mpr ⟨X ++ '"' :: u, rfl⟩)]
    simp only [List.drop_left]
    rw [takeWhile_word_eq X u '"' hw (by decide)]
    rw [if_neg hne]
    have hdrop : (X ++ '"' :: u).drop X.length = '"' :: u := List.drop_left X _
    rw [hdrop, if_pos ((litMatch_iff ['"'] ('"' :: u)).mpr ⟨u, rfl⟩)]

theorem fragmentAt_iff (t : List Char) (i : Nat) (X : List Char) :
    FragmentAt t i X ↔ matchNewStateAt (t.drop i) = some X := by
  rw [matchNewStateAt_iff]
  unfold FragmentAt
  constructor
  · rintro ⟨hne, hw, hm⟩
    refine ⟨hne, hw, ?_⟩
    obtain ⟨u, hu⟩ := (litMatch_iff _ _).mp hm
    exact ⟨u, by simpa [List.append_assoc] using hu⟩
  · rintro ⟨hne, hw, u, hu⟩
    exact ⟨hne, hw, (litMatch_iff _ _).mpr ⟨u, by simpa [List.append_assoc] using hu⟩⟩

theorem matchNewStateAt_nil : matchNewStateAt [] = none := by decide

theorem parse_eq_none_iff (t : List Char) :
    parse_operating_state t = none ↔ ∀ i, matchNewStateAt (t.drop i) = none := by
  induction t with
  | nil =>
    constructor
    · intro _ i
      rw [List.drop_nil]
      exact matchNewStateAt_nil
    · intro _; rfl
  | cons c cs ih =>
    constructor
    · intro h i
      simp only [parse_operating_state] at h
      cases hm : matchNewStateAt (c :: cs) with
      | some tok => rw [hm] at h; simp at h
      | none =>
        rw [hm] at h
        cases i with
        | zero => rw [List.drop_zero]; exact hm
        | succ j => rw [List.drop_succ_cons]; exact (ih.mp h) j
    · intro h
      have h0 := h 0
      rw [List.drop_zero] at h0
      simp only [parse_operating_state]
      rw [h0]
      exact ih.mpr (fun j => by have hj := h (j + 1); rwa [List.drop_succ_cons] at hj)

theorem parse_eq_some_of (t : List Char) (i : Nat) (X : List Char)
    (hm : matchNewStateAt (t.drop i) = some X)
    (hmin : ∀ j, j < i → matchNewStateAt (t.drop j) = none) :
    parse_operating_state t = some X := by
  induction t generalizing i with
  | nil =>
    rw [List.drop_nil, matchNewStateAt_nil] at hm
    simp at hm
  | cons c cs ih =>
    cases i with
    | zero =>
      rw [List.drop_zero] at hm
      simp only [parse_operating_state]
      rw [hm]
    | succ j =>
      have h0 := hmin 0 (Nat.succ_pos j)
      rw [List.drop_zero] at h0
      simp only [parse_operating_state]
      rw [h0]
      rw [List.drop_succ_cons] at hm
      exact ih j hm
        (fun k hk => by have hkk := hmin (k + 1) (by omega); rwa [List.drop_succ_cons] at hkk)

theorem parse_eq_some_imp (t X : List Char) (h : parse_operating_state t = some X) :
    ∃ i, matchNewStateAt (t.drop i) = some X := by
  induction t with
  | nil => simp [parse_operating_state] at h
  | cons c cs ih =>
    simp only [parse_operating_state] at h
    cases hm : matchNewStateAt (c :: cs) with
    | some tok =>
      rw [hm, Option.some.injEq] at h
      exact ⟨0, by rw [List.drop_zero, hm, h]⟩
    | none =>
      rw [hm] at h
      obtain ⟨i, hi⟩ := ih h
      exact ⟨i + 1, by rwa [List.drop_succ_cons]⟩

theorem isWordChar_ascii (c : Char) (h : c.toNat < 128) :
    isWordChar c = asciiWordChar c := by
  unfold isWordChar asciiWordChar
  have h8 : decide (0x80 ≤ c.toNat) = false := by
    rw [decide_eq_false_iff_not]
    omega
  rw [h8, Bool.false_and, Bool.or_false]

theorem maxByTs_not_lt (l : List Record) (r : Record) :
    ∀ s ∈ r :: l, tsLt (maxByTs r l).timestamp s.timestamp = false := by
  induction l generalizing r with
  | nil =>
    intro s hs
    rcases List.mem_cons.mp hs with rfl | hs'
    · simp only [maxByTs]; exact tsLt_irrefl _
    · simp at hs'
  | cons a as ih =>
    intro s hs
    simp only [maxByTs]
    by_cases h : tsLt r.timestamp a.timestamp = true
    · rw [if_pos h]
      rcases List.mem_cons.mp hs with rfl | hs'
      · have hma := ih a a (List.mem_cons_self a as)
        cases hmr : tsLt (maxByTs a as).timestamp s.timestamp with
        | false => rfl
        | true =>
          have ht := tsLt_trans hmr h
          rw [ht] at hma
          simp at hma
      · exact ih a s hs'
    · rw [if_neg h]
      have h' : tsLt r.timestamp a.timestamp = false := by
        cases hv : tsLt r.timestamp a.timestamp with
        | false => rfl
        | true => exact absurd hv h
      rcases List.mem_cons.mp hs with rfl | hs'
      · exact ih s s (List.mem_cons_self s as)
      · rcases List.mem_cons.mp hs' with rfl | hs''
        · exact tsLt_neg_trans (ih r r (List.mem_cons_self r as)) h'
        · exact ih r s (List.mem_cons.mpr (Or.inr hs''))

theorem tsSorted_cons {a : Record} {l : List Record} (h : tsSorted (a :: l) = true) :
    tsSorted l = true ∧ ∀ b ∈ l, tsLt a.timestamp b.timestamp = true := by
  induction l generalizing a with
  | nil => exact ⟨rfl, by simp⟩
  | cons c cs ih =>
    simp only [tsSorted, Bool.and_eq_true] at h
    obtain ⟨hac, hrest⟩ := h
    obtain ⟨_, hall⟩ := ih hrest
    refine ⟨hrest, ?_⟩
    intro b hb
    rcases List.mem_cons.mp hb with rfl | hb'
    · exact hac
    · exact tsLt_trans hac (hall b hb')

theorem tsSorted_append_lt {xs ys : List Record} (h : tsSorted (xs ++ ys) = true) :
    ∀ a ∈ xs, ∀ b ∈ ys, tsLt a.timestamp b.timestamp = true := by
  induction xs with
  | nil => simp
  | cons x xs' ih =>
    intro a ha b hb
    rw [List.cons_append] at h
    obtain ⟨h1, h2⟩ := tsSorted_cons h
    rcases List.mem_cons.mp ha with rfl | ha'
    · exact h2 b (List.mem_append.mpr (Or.inr hb))
    · exact ih h1 a ha' b hb

theorem maxByTs_sorted : ∀ (rs : List Record) (r : Record),
    tsSorted (r :: rs) = true → maxByTs r rs = (r :: rs).getLast (by simp) := by
  intro rs
  induction rs with
  | nil => intro r _; rfl
  | cons a as ih =>
    intro r h
    simp only [tsSorted, Bool.and_eq_true] at h
    simp only [maxByTs]
    rw [if_pos h.1, ih a h.2]
    exact (List.getLast_cons (by simp)).symm

theorem query_latest_sorted {S : List Record} (h : tsSorted S = true) :
    query_latest S = S.getLast? := by
  cases S with
  | nil => rfl
  | cons r rs =>
    rw [List.getLast?_eq_getLast (r :: rs) (by simp)]
    simp only [query_latest, Option.some.injEq]
    exact maxByTs_sorted rs r h

theorem processDatagram_eq (store : List Record) (e : IngestEvent) :
    processDatagram store e = store ++ (eventRecord e).toList := by
  unfold processDatagram eventRecord
  cases hrel : is_relevant (utf8DecodeIgnore e.dgram.data) with
  | false => simp
  | true =>
    cases hp : parse_operating_state (utf8DecodeIgnore e.dgram.data) with
    | none => simp
    | some ns =>
      cases hap : e.appendOk with
      | false => simp [log_to_database, hap]
      | true => simp [log_to_database, hap]

theorem runListener_eq (es : List IngestEvent) (store : List Record) :
    runListener store es = store ++ es.filterMap eventRecord := by
  induction es generalizing store with
  | nil => simp [runListener]
  | cons e es' ih =>
    simp only [runListener]
    rw [ih, processDatagram_eq, List.filterMap_cons]
    cases he : eventRecord e with
    | none => simp
    | some r => simp

theorem pollTick_emit {ps : PollerState} {cnt : Int} {latest : Option Record} {r : Record}
    (h : (pollTick ps cnt latest).2 = some r) :
    latest = some r ∧ ps.last_record_count < cnt ∧ (0 : Int) < cnt ∧
      stateDiffers r ps.last_state = true ∧
      pollTick ps cnt latest = (⟨cnt, some r⟩, some r) := by
  by_cases hc : ps.last_record_count < cnt ∧ (0 : Int) < cnt
  · cases latest with
    | none => simp [pollTick, hc] at h
    | some q =>
      by_cases hd : stateDiffers q ps.last_state = true
      · have hq : q = r := by simpa [pollTick, hc, hd] using h
        subst hq
        exact ⟨rfl, hc.1, hc.2, hd, by simp [pollTick, hc, hd]⟩
      · simp [pollTick, hc, hd] at h
  · simp [pollTick, hc] at h

theorem pollTick_silent {ps : PollerState} {cnt : Int} {latest : Option Record}
    (h : (pollTick ps cnt latest).2 = none) :
    (pollTick ps cnt latest).1.last_state = ps.last_state := by
  by_cases hc : ps.last_record_count < cnt ∧ (0 : Int) < cnt
  · cases latest with
    | none => simp [pollTick, hc]
    | some q =>
      by_cases hd : stateDiffers q ps.last_state = true
      · simp [pollTick, hc, hd] at h
      · simp [pollTick, hc, hd]
  · simp [pollTick, hc]

theorem pollTick_count (ps : PollerState) (cnt : Int) (latest : Option Record) :
    (pollTick ps cnt latest).1.last_record_count = ps.last_record_count ∨
      ((pollTick ps cnt latest).1.last_record_count = cnt ∧
        ps.last_record_count < cnt) := by
  by_cases hc : ps.last_record_count < cnt ∧ (0 : Int) < cnt
  · cases latest with
    | none => exact Or.inr ⟨by simp [pollTick, hc], hc.1⟩
    | some q =>
      by_cases hd : stateDiffers q ps.last_state = true
      · exact Or.inr ⟨by simp [pollTick, hc, hd], hc.1⟩
      · exact Or.inr ⟨by simp [pollTick, hc, hd], hc.1⟩
  · exact Or.inl (by simp [pollTick, hc])

theorem runPoller_cons (ps : PollerState) (t : TickInput) (ts : List TickInput) :
    runPoller ps (t :: ts) =
      ((runPoller (pollTick ps (get_record_count t.countOk t.store)
          (query_latest_state t.latestOk t.store)).1 ts).1,
        (pollTick ps (get_record_count t.countOk t.store)
            (query_latest_state t.latestOk t.store)).2 ::
          (runPoller (pollTick ps (get_record_count t.countOk t.store)
              (query_latest_state t.latestOk t.store)).1 ts).2) := rfl

theorem runPoller_length : ∀ (ts : List TickInput) (ps : PollerState),
    (runPoller ps ts).2.length = ts.length := by
  intro ts
  induction ts with
  | nil => intro ps; rfl
  | cons t ts' ih =>
    intro ps
    rw [runPoller_cons]
    simp [ih]

theorem runPoller_notifChain : ∀ (ts : List TickInput) (ps : PollerState),
    NotifChain ps.last_state ((runPoller ps ts).2.filterMap id) := by
  intro ts
  induction ts with
  | nil => intro ps; simp [runPoller, NotifChain]
  | cons t ts' ih =>
    intro ps
    rw [runPoller_cons]
    simp only [List.filterMap_cons]
    cases ho : (pollTick ps (get_record_count t.countOk t.store)
        (query_latest_state t.latestOk t.store)).2 with
    | none =>
      have hls := pollTick_silent ho
      have hch := ih (pollTick ps (get_record_count t.countOk t.store)
        (query_latest_state t.latestOk t.store)).1
      rw [hls] at hch
      simpa using hch
    | some r =>
      obtain ⟨_, _, _, hd, hps⟩ := pollTick_emit ho
      have hch := ih (pollTick ps (get_record_count t.countOk t.store)
        (query_latest_state t.latestOk t.store)).1
      have hls : (pollTick ps (get_record_count t.countOk t.store)
          (query_latest_state t.latestOk t.store)).1.last_state = some r := by rw [hps]
      rw [hls] at hch
      exact ⟨hd, hch⟩

theorem runPoller_steady (S : List Record) : ∀ (n : Nat) (ps : PollerState),
    ((S.length : Int) ≤ ps.last_record_count ∨ S.length = 0) →
    runPoller ps (List.replicate n (goodTick S)) = (ps, List.replicate n none) := by
  intro n
  induction n with
  | zero => intro ps _; rfl
  | succ m ih =>
    intro ps h
    have hcond : ¬ (ps.last_record_count < get_record_count (goodTick S).countOk
        (goodTick S).store ∧ (0 : Int) < get_record_count (goodTick S).countOk
        (goodTick S).store) := by
      simp only [goodTick, get_record_count, if_true]
      rcases h with h | h
      · intro hc; omega
      · intro hc; rw [h] at hc; simp at hc
    have htick : pollTick ps (get_record_count (goodTick S).countOk (goodTick S).store)
        (query_latest_state (goodTick S).latestOk (goodTick S).store) = (ps, none) := by
      unfold pollTick
      rw [if_neg hcond]
    rw [List.replicate_succ, runPoller_cons, htick]
    rw [ih ps h, List.replicate_succ]

theorem runPoller_zip_emit : ∀ (ts : List TickInput) (ps : PollerState)
    (p : TickInput × Option Record), p ∈ ts.zip (runPoller ps ts).2 →
    ∀ r, p.2 = some r → p.1.latestOk = true ∧ query_latest p.1.store = some r := by
  intro ts
  induction ts with
  | nil => intro ps p hp; simp [runPoller] at hp
  | cons t ts' ih =>
    intro ps p hp r hr
    rw [runPoller_cons, List.zip_cons_cons] at hp
    rcases List.mem_cons.mp hp with rfl | hp'
    · obtain ⟨hl, _, _, _, _⟩ := pollTick_emit hr
      unfold query_latest_state at hl
      cases hok : t.latestOk with
      | false => rw [hok] at hl; simp at hl
      | true =>
        rw [hok] at hl
        rw [if_pos rfl] at hl
        exact ⟨rfl, hl⟩
    · exact ih _ p hp' r hr

theorem runPoller_emit_from (S₀ : List Record) : ∀ (ts : List TickInput) (ps : PollerState),
    (S₀.length : Int) ≤ ps.last_record_count →
    (∀ t ∈ ts, storeExtends S₀ t.store ∧ tsSorted t.store = true) →
    ∀ r, some r ∈ (runPoller ps ts).2 →
    ∃ t ∈ ts, r ∈ t.store.drop S₀.length ∧ S₀.length < t.store.length := by
  intro ts
  induction ts with
  | nil => intro ps _ _ r hr; simp [runPoller] at hr
  | cons t ts' ih =>
    intro ps hps hts r hr
    rw [runPoller_cons] at hr
    rcases List.mem_cons.mp hr with heq | hr'
    · obtain ⟨hl, hlt, hpos, _, _⟩ := pollTick_emit heq.symm
      obtain ⟨hext, hsort⟩ := hts t (List.mem_cons_self t ts')
      cases hok : t.countOk with
      | false =>
        exfalso
        rw [hok] at hlt
        unfold get_record_count at hlt
        simp at hlt
        omega
      | true =>
        rw [hok] at hlt
        unfold get_record_count at hlt
        rw [if_pos rfl] at hlt
        have hlen : S₀.length < t.store.length := by omega
        cases hqok : t.latestOk with
        | false =>
          rw [hqok] at hl
          unfold query_latest_state at hl
          simp at hl
        | true =>
          rw [hqok] at hl
          unfold query_latest_state at hl
          rw [if_pos rfl] at hl
          rw [query_latest_sorted hsort] at hl
          obtain ⟨u, hu⟩ := hext
          have hune : u ≠ [] := by
            intro h
            rw [h, List.append_nil] at hu
            rw [hu] at hlen
            omega
          rw [hu, List.getLast?_append, List.getLast?_eq_getLast u hune] at hl
          simp only [Option.or_some, Option.some.injEq] at hl
          refine ⟨t, List.mem_cons_self t ts', ?_, hlen⟩
          rw [hu, List.drop_left, ← hl]
          exact List.getLast_mem hune
    · have hinv : (S₀.length : Int) ≤ (pollTick ps (get_record_count t.countOk t.store)
          (query_latest_state t.latestOk t.store)).1.last_record_count := by
        rcases pollTick_count ps (get_record_count t.countOk t.store)
            (query_latest_state t.latestOk t.store) with h | ⟨h1, h2⟩
        · rw [h]; exact hps
        · rw [h1]; omega
      obtain ⟨t', ht', hres⟩ := ih _ hinv
        (fun x hx => hts x (List.mem_cons.mpr (Or.inr hx))) r hr'
      exact ⟨t', List.mem_cons.mpr (Or.inr ht'), hres⟩

theorem pollTick_count_of_pos {ps : PollerState} {cnt : Int} {latest : Option Record}
    (hc : ps.last_record_count < cnt ∧ (0 : Int) < cnt) :
    (pollTick ps cnt latest).1.last_record_count = cnt := by
  cases latest with
  | none => simp [pollTick, hc]
  | some q =>
    by_cases hd : stateDiffers q ps.last_state = true
    · simp [pollTick, hc, hd]
    · simp [pollTick, hc, hd]

theorem pollTick_of_neg {ps : PollerState} {cnt : Int} {latest : Option Record}
    (hc : ¬ (ps.last_record_count < cnt ∧ (0 : Int) < cnt)) :
    pollTick ps cnt latest = (ps, none) := by
  unfold pollTick
  rw [if_neg hc]

theorem parse_of_first_fragment (t : List Char) (i : Nat) (X : List Char)
    (hfrag : FragmentAt t i X) (hmin : ∀ j Y, FragmentAt t j Y → i ≤ j) :
    parse_operating_state t = some X := by
  apply parse_eq_some_of t i X ((fragmentAt_iff t i X).mp hfrag)
  intro j hj
  cases hm : matchNewStateAt (t.drop j) with
  | none => rfl
  | some Y =>
    have hY := hmin j Y ((fragmentAt_iff t j Y).mpr hm)
    omega

/-! Claim C1. -/

/-- Claim C1, counterexample: one record is already in the store when the
poller starts, so `pollerInit` reads count 1; a failure-free tick then
emits nothing, although no record has been notified yet and the latest
record exists (so the claimed "emit iff differs" biconditional fails in the
"if" direction: the count short-circuit suppresses the notification). -/
theorem C1_counterexample :
    (runPoller (pollerInit true [rec1]) [goodTick [rec1]]).2 = [none] ∧
    query_latest_state true [rec1] = some rec1 ∧
    stateDiffers rec1 (pollerInit true [rec1]).last_state = true := by decide

/-- Claim C1, amended: a tick emits a notification — necessarily the record
returned by the latest-record read — iff the count read is positive,
strictly exceeds the last seen count, the latest read returns a record, and
that record differs in timestamp or operating-state token from the
previously notified one; consequently no two consecutive notifications
carry identical (timestamp, operating_state) pairs. -/
theorem C1_amended :
    (∀ (ps : PollerState) (cnt : Int) (latest : Option Record) (r : Record),
      (pollTick ps cnt latest).2 = some r ↔
        latest = some r ∧ ps.last_record_count < cnt ∧ (0 : Int) < cnt ∧
          stateDiffers r ps.last_state = true) ∧
    (∀ (ps : PollerState) (ts : List TickInput),
      NotifChain ps.last_state ((runPoller ps ts).2.filterMap id)) := by
  constructor
  · intro ps cnt latest r
    constructor
    · intro h
      obtain ⟨h1, h2, h3, h4, _⟩ := pollTick_emit h
      exact ⟨h1, h2, h3, h4⟩
    · rintro ⟨rfl, h2, h3, h4⟩
      simp [pollTick, h2, h3, h4]
  · exact fun ps ts => runPoller_notifChain ts ps

/-- Claim C1, witness: the biconditional and the chain property evaluated
at a concrete fresh poller over the one-record store. -/
theorem C1_witness :
    ((pollTick (pollerInit true []) 1 (some rec1)).2 = some rec1 ↔
      (some rec1 = some rec1 ∧ (pollerInit true []).last_record_count < 1 ∧
        (0 : Int) < 1 ∧ stateDiffers rec1 (pollerInit true []).last_state = true)) ∧
    NotifChain (pollerInit true []).last_state
      ((runPoller (pollerInit true []) [goodTick [rec1]]).2.filterMap id) :=
  ⟨C1_amended.1 (pollerInit true []) 1 (some rec1) rec1,
   C1_amended.2 (pollerInit true []) [goodTick [rec1]]⟩

/-! Claim C2. -/

/-- Claim C2, counterexample: `cexBytes` does not contain the marker as a
byte substring (an invalid `0xFF` byte splits it), yet lossy decoding drops
the invalid byte, the relevance check passes, and ingesting the datagram
appends a record — refuting the claim at the byte level. -/
theorem C2_counterexample :
    containsSeq markerBytes cexBytes = false ∧
    utf8DecodeIgnore cexBytes = "SE_OPMOD_CHANGED newState=\"RUN\"".data ∧
    is_relevant (utf8DecodeIgnore cexBytes) = true ∧
    processDatagram [] ⟨⟨cexBytes, "10.0.0.5", 555⟩, "2025-01-01T00:00:00", true⟩ =
      [⟨"2025-01-01T00:00:00", "10.0.0.5", 555, "RUN"⟩] := by decide

/-- Claim C2, amended: for every datagram whose lossily decoded text does
not contain the relevance marker, the relevance check returns false and the
datagram leaves the store unchanged; a whole trace of such datagrams
appends no record. -/
theorem C2_amended :
    (∀ (e : IngestEvent) (store : List Record),
      containsSeq relevanceMarker (utf8DecodeIgnore e.dgram.data) = false →
      is_relevant (utf8DecodeIgnore e.dgram.data) = false ∧
        processDatagram store e = store) ∧
    (∀ (es : List IngestEvent) (store : List Record),
      (∀ e ∈ es, containsSeq relevanceMarker (utf8DecodeIgnore e.dgram.data) = false) →
      runListener store es = store) := by
  have hrel : ∀ (e : IngestEvent),
      containsSeq relevanceMarker (utf8DecodeIgnore e.dgram.data) = false →
      is_relevant (utf8DecodeIgnore e.dgram.data) = false := by
    intro e h
    simp [is_relevant, relevant_messages, h]
  constructor
  · intro e store h
    refine ⟨hrel e h, ?_⟩
    simp [processDatagram, hrel e h]
  · intro es store h
    rw [runListener_eq]
    have hnil : es.filterMap eventRecord = [] := by
      rw [List.filterMap_eq_nil_iff]
      intro e he
      simp [eventRecord, hrel e (h e he)]
    rw [hnil, List.append_nil]

/-- Claim C2, witness: an unrelated datagram is rejected and ignored. -/
theorem C2_witness :
    containsSeq relevanceMarker (utf8DecodeIgnore ("hello".data.map Char.toNat)) = false ∧
    (is_relevant (utf8DecodeIgnore ("hello".data.map Char.toNat)) = false ∧
      processDatagram [rec1]
        ⟨⟨"hello".data.map Char.toNat, "1.2.3.4", 1⟩, "t", true⟩ = [rec1]) :=
  ⟨by decide,
   C2_amended.1 ⟨⟨"hello".data.map Char.toNat, "1.2.3.4", 1⟩, "t", true⟩ [rec1] (by decide)⟩

/-! Claim C3. -/

set_option maxRecDepth 8192 in
/-- Claim C3, counterexample: reading "the token grammar" as the
specification's `[A-Za-z0-9_]+`, the claim fails on the code: in
`newState="λ" newState="RUN"` the fragment at position 13 carries the
grammar-conforming token `RUN`, yet the parser returns `λ` — a token
outside that grammar, captured from the earlier fragment because the
source's `str`-pattern `\w` also matches Unicode word characters. -/
theorem C3_counterexample :
    parse_operating_state "newState=\"λ\" newState=\"RUN\"".data = some ['λ'] ∧
    litMatch (newStateKey ++ "RUN".data ++ ['"'])
      ("newState=\"λ\" newState=\"RUN\"".data.drop 13) = true ∧
    "RUN".data.all asciiWordChar = true ∧
    asciiWordChar 'λ' = false := by decide

/-- Claim C3, amended: with the token grammar read as Python's `\w` word
characters (Unicode letters, digits and underscore — not only ASCII), if a
well-formed fragment `newState="X"` occurs in the text and it is the first
such fragment, `parse_operating_state` returns exactly `X`; if no such
fragment occurs it returns `none` (never an error — the function is
total); and ingesting a relevant datagram whose decoded text has `X` as
its first fragment, with a succeeding append, appends exactly one record
whose `operating_state` is `X`. -/
theorem C3_extract_state :
    (∀ (t : List Char) (i : Nat) (X : List Char),
      FragmentAt t i X → (∀ j Y, FragmentAt t j Y → i ≤ j) →
      parse_operating_state t = some X) ∧
    (∀ (t : List Char), (∀ i X, ¬ FragmentAt t i X) →
      parse_operating_state t = none) ∧
    (∀ (e : IngestEvent) (store : List Record) (i : Nat) (X : List Char),
      FragmentAt (utf8DecodeIgnore e.dgram.data) i X →
      (∀ j Y, FragmentAt (utf8DecodeIgnore e.dgram.data) j Y → i ≤ j) →
      is_relevant (utf8DecodeIgnore e.dgram.data) = true →
      e.appendOk = true →
      processDatagram store e =
        store ++ [⟨e.now, e.dgram.ip, e.dgram.port, String.mk X⟩]) := by
  refine ⟨fun t i X hf hm => parse_of_first_fragment t i X hf hm, ?_, ?_⟩
  · intro t h
    rw [parse_eq_none_iff]
    intro i
    cases hm : matchNewStateAt (t.drop i) with
    | none => rfl
    | some Y => exact absurd ((fragmentAt_iff t i Y).mpr hm) (h i Y)
  · intro e store i X hf hm hrel hok
    have hp := parse_of_first_fragment _ i X hf hm
    simp [processDatagram, hrel, hp, log_to_database, hok]

/-- Claim C3, witness: scenario A of the design — the datagram
`SE_OPMOD_CHANGED newState="RUN"` has its first fragment at position 17
with token `RUN`, parses to `RUN`, and ingestion appends that one record;
and with a non-ASCII word token, `SE_OPMOD_CHANGED newState="λ"` parses to
`λ`, matching the program. -/
theorem C3_witness :
    parse_operating_state "SE_OPMOD_CHANGED newState=\"RUN\"".data = some "RUN".data ∧
    processDatagram [] okEvent =
      [⟨"2025-01-01T00:00:00", "10.0.0.5", 555, "RUN"⟩] ∧
    parse_operating_state "SE_OPMOD_CHANGED newState=\"λ\"".data = some ['λ'] := by
  have hmin : ∀ j Y, FragmentAt "SE_OPMOD_CHANGED newState=\"RUN\"".data j Y → 17 ≤ j := by
    intro j Y hfY
    by_contra hj
    have hm := (fragmentAt_iff _ j Y).mp hfY
    have hnone : ∀ k, k < 17 →
        matchNewStateAt ("SE_OPMOD_CHANGED newState=\"RUN\"".data.drop k) = none := by decide
    rw [hnone j (by omega)] at hm
    simp at hm
  have hdec : utf8DecodeIgnore okEvent.dgram.data =
      "SE_OPMOD_CHANGED newState=\"RUN\"".data := by decide
  refine ⟨?_, ?_, ?_⟩
  · exact C3_extract_state.1 _ 17 "RUN".data
      ((fragmentAt_iff _ 17 "RUN".data).mpr (by decide)) hmin
  · refine C3_extract_state.2.2 okEvent [] 17 "RUN".data ?_ ?_ (by decide) rfl
    · rw [hdec]; exact (fragmentAt_iff _ 17 "RUN".data).mpr (by decide)
    · rw [hdec]; exact hmin
  · have hminL : ∀ j Y, FragmentAt "SE_OPMOD_CHANGED newState=\"λ\"".data j Y → 17 ≤ j := by
      intro j Y hfY
      by_contra hj
      have hm := (fragmentAt_iff _ j Y).mp hfY
      have hnone : ∀ k, k < 17 →
          matchNewStateAt ("SE_OPMOD_CHANGED newState=\"λ\"".data.drop k) = none := by decide
      rw [hnone j (by omega)] at hm
      simp at hm
    exact C3_extract_state.1 _ 17 ['λ']
      ((fragmentAt_iff _ 17 ['λ']).mpr (by decide)) hminL

/-! Claim C4. -/

/-- Claim C4, counterexample: on the text `newState="é"` the parser returns
the token `é` — Python's `\w` is Unicode-aware, so the extracted token is
not restricted to `[A-Za-z0-9_]` as claimed. -/
theorem C4_counterexample :
    parse_operating_state "newState=\"é\"".data = some ['é'] ∧
    asciiWordChar 'é' = false := by decide

/-- Claim C4, amended: every character of an extracted token is a word
character in Python's Unicode sense (`\w`); when the input text is pure
ASCII, every character of the token lies in the class `[A-Za-z0-9_]`. -/
theorem C4_amended :
    ∀ (t X : List Char), parse_operating_state t = some X →
      (∀ c ∈ X, isWordChar c = true) ∧
      ((∀ c ∈ t, c.toNat < 128) → ∀ c ∈ X, asciiWordChar c = true) := by
  intro t X h
  obtain ⟨i, hi⟩ := parse_eq_some_imp t X h
  obtain ⟨hne, hw, u, hu⟩ := (matchNewStateAt_iff _ X).mp hi
  refine ⟨hw, ?_⟩
  intro hascii c hc
  have hct : c ∈ t := by
    apply List.mem_of_mem_drop (n := i)
    rw [hu]
    simp [List.mem_append, hc]
  rw [← isWordChar_ascii c (hascii c hct)]
  exact hw c hc

/-- Claim C4, witness: the ASCII token `ab_9` extracted from ASCII text is
made of word characters and of `[A-Za-z0-9_]` characters, while the
non-ASCII token `λ` the program extracts is also made of word characters. -/
theorem C4_witness :
    (∀ c ∈ ['a', 'b', '_', '9'], isWordChar c = true) ∧
    ((∀ c ∈ "x newState=\"ab_9\" y".data, c.toNat < 128) →
      ∀ c ∈ ['a', 'b', '_', '9'], asciiWordChar c = true) ∧
    (∀ c ∈ ['λ'], isWordChar c = true) := by
  have h1 := C4_amended "x newState=\"ab_9\" y".data ['a', 'b', '_', '9'] (by decide)
  have h2 := C4_amended "newState=\"λ\"".data ['λ'] (by decide)
  exact ⟨h1.1, h1.2, h2.1⟩

/-! Claim C5. -/

/-- Claim C5: over a store whose insertion order agrees with strictly
increasing timestamps (the stated store invariant), a successful
`query_latest_state` returns the last appended record — after N appends,
the Nth; and unconditionally the returned record's timestamp is not
exceeded by any record in the store. -/
theorem C5_latest :
    ∀ (S : List Record),
      (tsSorted S = true → query_latest_state true S = S.getLast?) ∧
      (∀ m, query_latest_state true S = some m →
        ∀ r ∈ S, tsLt m.timestamp r.timestamp = false) := by
  intro S
  constructor
  · intro h
    unfold query_latest_state
    rw [if_pos rfl]
    exact query_latest_sorted h
  · intro m hm r hr
    unfold query_latest_state at hm
    rw [if_pos rfl] at hm
    cases S with
    | nil => simp [query_latest] at hm
    | cons a as =>
      simp only [query_latest, Option.some.injEq] at hm
      subst hm
      exact maxByTs_not_lt as a r hr

/-- Claim C5, witness: after the two appends `rec1, rec2` the latest query
returns `rec2`, the second (and maximal-timestamp) append. -/
theorem C5_witness :
    query_latest_state true [rec1, rec2] = [rec1, rec2].getLast? ∧
    (∀ r ∈ [rec1, rec2], tsLt rec2.timestamp r.timestamp = false) :=
  ⟨(C5_latest [rec1, rec2]).1 (by decide),
   (C5_latest [rec1, rec2]).2 rec2 (by decide)⟩

/-! Claim C6. -/

/-- Claim C6, counterexample: with store `[rec1]`, a tick whose count read
succeeds but whose latest-record read fails advances `last_record_count` to
1 while emitting nothing; the resulting state is a fixed point of
failure-free ticks over the unchanged store, so the successfully appended
record `rec1` is never notified — it is permanently skipped because of the
transient failure, refuting the claim. -/
theorem C6_counterexample :
    runPoller (pollerInit true []) [⟨[rec1], true, false⟩, goodTick [rec1]] =
      (⟨1, none⟩, [none, none]) ∧
    pollTick ⟨1, none⟩ (get_record_count true [rec1])
      (query_latest_state true [rec1]) = (⟨1, none⟩, none) := by decide

/-- Claim C6, amended: a failed count read returns `-1`, which never passes
the positivity test, so the tick is silent and the session state is fully
unchanged — the poller retries from the same state next tick and nothing is
lost; a failed latest read after a count increase is also silent and does
not crash, but it still advances `last_record_count` to the new count, so
the records counted on that tick are not re-read on later ticks. -/
theorem C6_amended :
    (∀ (ps : PollerState) (latest : Option Record),
      pollTick ps (-1 : Int) latest = (ps, none)) ∧
    (∀ (ps : PollerState) (cnt : Int),
      ps.last_record_count < cnt → (0 : Int) < cnt →
      pollTick ps cnt none = (⟨cnt, ps.last_state⟩, none)) := by
  constructor
  · intro ps latest
    have h : ¬ (ps.last_record_count < (-1 : Int) ∧ (0 : Int) < (-1 : Int)) := by
      intro hc
      omega
    unfold pollTick
    rw [if_neg h]
  · intro ps cnt h1 h2
    unfold pollTick
    rw [if_pos ⟨h1, h2⟩]

/-- Claim C6, witness: both failure shapes evaluated at the fresh poller. -/
theorem C6_witness :
    pollTick (pollerInit true []) (-1 : Int) none = (pollerInit true [], none) ∧
    pollTick (pollerInit true []) 1 none = (⟨1, none⟩, none) :=
  ⟨C6_amended.1 (pollerInit true []) none,
   C6_amended.2 (pollerInit true []) 1 (by decide) (by decide)⟩

/-! Claim C7. -/

/-- Claim C7: the store after a trace is the initial store followed by
exactly the records of the events whose decoded text was relevant, parsed,
and whose append succeeded, in order; an event whose append fails
contributes no record, and removing such an event from the front of a trace
does not change the final store — the loop continues, and the failed record
is neither retried nor queued. -/
theorem C7_append_failure :
    (∀ (es : List IngestEvent) (store : List Record),
      runListener store es = store ++ es.filterMap eventRecord) ∧
    (∀ (e : IngestEvent), e.appendOk = false → eventRecord e = none) ∧
    (∀ (e : IngestEvent) (es : List IngestEvent) (store : List Record),
      e.appendOk = false → runListener store (e :: es) = runListener store es) := by
  have hnone : ∀ (e : IngestEvent), e.appendOk = false → eventRecord e = none := by
    intro e h
    unfold eventRecord
    cases hrel : is_relevant (utf8DecodeIgnore e.dgram.data) with
    | false => simp
    | true =>
      cases hp : parse_operating_state (utf8DecodeIgnore e.dgram.data) with
      | none => simp
      | some ns => simp [h]
  refine ⟨fun es store => runListener_eq es store, hnone, ?_⟩
  intro e es store h
  rw [runListener_eq, runListener_eq, List.filterMap_cons, hnone e h]

/-- Claim C7, witness: a relevant, parseable datagram whose append fails
leaves no record, and the trace continues as if it were absent. -/
theorem C7_witness :
    eventRecord failEvent = none ∧
    runListener [] [failEvent, okEvent] = runListener [] [okEvent] :=
  ⟨C7_append_failure.2.1 failEvent rfl,
   C7_append_failure.2.2 failEvent [okEvent] [] rfl⟩

/-! Claim C8. -/

/-- Claim C8: polling is idempotent on an unchanged store — after one
failure-free tick over store `S` (which absorbs any pending count change),
any number `n` of further failure-free ticks over the same store emit zero
notifications and leave the session state untouched. -/
theorem C8_idempotent :
    ∀ (ps : PollerState) (S : List Record) (n : Nat),
      runPoller (pollTick ps (get_record_count true S) (query_latest_state true S)).1
        (List.replicate n (goodTick S)) =
      ((pollTick ps (get_record_count true S) (query_latest_state true S)).1,
        List.replicate n none) := by
  intro ps S n
  apply runPoller_steady
  by_cases hc : ps.last_record_count < get_record_count true S ∧
      (0 : Int) < get_record_count true S
  · left
    rw [pollTick_count_of_pos hc]
    unfold get_record_count
    rw [if_pos rfl]
  · rcases not_and_or.mp hc with h | h
    · left
      rw [pollTick_of_neg hc]
      show (S.length : Int) ≤ ps.last_record_count
      unfold get_record_count at h
      rw [if_pos rfl] at h
      omega
    · right
      unfold get_record_count at h
      rw [if_pos rfl] at h
      omega

/-- Claim C8, witness: two further ticks over the unchanged one-record
store emit nothing. -/
theorem C8_witness :
    runPoller (pollTick (pollerInit true []) (get_record_count true [rec1])
        (query_latest_state true [rec1])).1 (List.replicate 2 (goodTick [rec1])) =
      ((pollTick (pollerInit true []) (get_record_count true [rec1])
          (query_latest_state true [rec1])).1, List.replicate 2 none) :=
  C8_idempotent (pollerInit true []) [rec1] 2

/-! Claim C9. -/

/-- Claim C9, counterexample: if the startup count read fails,
`last_record_count` is initialized to `-1` — not the store's record count —
and over a store holding two records appended before polling began, the
very first failure-free tick emits a notification carrying the pre-existing
record `rec2`, refuting the claim. -/
theorem C9_counterexample :
    (pollerInit false [rec1, rec2]).last_record_count = -1 ∧
    (runPoller (pollerInit false [rec1, rec2]) [goodTick [rec1, rec2]]).2 =
      [some rec2] := by decide

/-- Claim C9, amended: when the startup count read succeeds, the last seen
count is initialized to the startup store's count, and over any trace of
ticks whose stores extend the startup store (append-only, sorted
timestamps) every emitted record lies beyond the startup prefix — it was
appended after polling began, and its tick's store count strictly exceeds
the startup count.  When the startup read fails the count is initialized to
`-1` instead, and pre-existing records can be notified. -/
theorem C9_amended :
    ∀ (S₀ : List Record) (ts : List TickInput),
      (∀ t ∈ ts, storeExtends S₀ t.store ∧ tsSorted t.store = true) →
      (pollerInit true S₀).last_record_count = (S₀.length : Int) ∧
      (pollerInit false S₀).last_record_count = -1 ∧
      ∀ r, some r ∈ (runPoller (pollerInit true S₀) ts).2 →
        r ∉ S₀ ∧ ∃ t ∈ ts, r ∈ t.store.drop S₀.length ∧ S₀.length < t.store.length := by
  intro S₀ ts hts
  refine ⟨by simp [pollerInit, get_record_count],
    by simp [pollerInit, get_record_count], ?_⟩
  intro r hr
  have hle : (S₀.length : Int) ≤ (pollerInit true S₀).last_record_count := by
    simp [pollerInit, get_record_count]
  obtain ⟨t, ht, hmem, hlen⟩ := runPoller_emit_from S₀ ts (pollerInit true S₀) hle hts r hr
  refine ⟨?_, t, ht, hmem, hlen⟩
  obtain ⟨hext, hsort⟩ := hts t ht
  obtain ⟨u, hu⟩ := hext
  rw [hu, List.drop_left] at hmem
  intro hrS
  have hlt := tsSorted_append_lt (by rw [← hu]; exact hsort) r hrS r hmem
  rw [tsLt_irrefl] at hlt
  simp at hlt

/-- Claim C9, witness: starting from an empty store with a successful
startup read, the record `rec1` appended afterwards and notified on a tick
is not a startup record and lies in the appended part. -/
theorem C9_witness :
    rec1 ∉ ([] : List Record) ∧
    ∃ t ∈ [goodTick [rec1]], rec1 ∈ t.store.drop 0 ∧ 0 < t.store.length := by
  have h := C9_amended [] [goodTick [rec1]]
    (by
      intro t ht
      rcases List.mem_cons.mp ht with rfl | h'
      · exact ⟨⟨[rec1], rfl⟩, by decide⟩
      · simp at h')
  exact h.2.2 rec1 (by decide)

/-! Claim C10. -/

/-- Claim C10: each tick contributes exactly one output slot, so at most
one notification per tick; a notification on a tick is exactly the record
the latest query returns for that tick's store, and under the sorted-store
invariant it is that store's most recent (last) record — records appended
between ticks that are no longer the latest are never notified. -/
theorem C10_latest_only :
    ∀ (ps : PollerState) (ts : List TickInput),
      (runPoller ps ts).2.length = ts.length ∧
      ∀ p ∈ ts.zip (runPoller ps ts).2, ∀ r, p.2 = some r →
        p.1.latestOk = true ∧ query_latest p.1.store = some r ∧
        (tsSorted p.1.store = true → p.1.store.getLast? = some r) := by
  intro ps ts
  refine ⟨runPoller_length ts ps, ?_⟩
  intro p hp r hr
  obtain ⟨hok, hq⟩ := runPoller_zip_emit ts ps p hp r hr
  exact ⟨hok, hq, fun hs => by rw [← query_latest_sorted hs]; exact hq⟩

/-- Claim C10, witness: on a tick over the two-record store where `rec2` is
latest, the emitted notification is `rec2`, the store's last record. -/
theorem C10_witness :
    (goodTick [rec1, rec2]).latestOk = true ∧
    query_latest (goodTick [rec1, rec2]).store = some rec2 ∧
    (tsSorted (goodTick [rec1, rec2]).store = true →
      (goodTick [rec1, rec2]).store.getLast? = some rec2) :=
  (C10_latest_only (pollerInit true []) [goodTick [rec1, rec2]]).2
    (goodTick [rec1, rec2], some rec2) (by decide) rec2 rfl
